import Mathlib

/-
Verification of the ISweep backend content-analysis core
(`src/content_analyzer.py`), shallowly embedded in Lean 4.

Modelling conventions:
* Python strings are Lean `String`s; `str.lower()` is modelled for the
  ASCII range (the keyword lists, patterns and all worked examples are
  ASCII).
* `re.findall(r'\b(w1|w2|...)\b', text, re.IGNORECASE)` over a pattern
  whose alternatives are plain words counts exactly the maximal runs of
  word characters (`[A-Za-z0-9_]`) in `text` that, lowercased, equal one
  of the alternatives: a `\b` boundary can only sit at the edge of such a
  run, and the leftmost-first alternation plus the trailing `\b` force a
  whole-run match.  The embedding therefore tokenizes the text into
  maximal word-character runs and counts token equalities.
* Python's `text.split()` (no argument) splits on whitespace and drops
  empty fields; it is embedded by the same tokenizer with a whitespace
  separator predicate.
* A Python dict of preferences is embedded as a record with one
  `Option`-valued field per dict key the analyzer reads
  (`dict.get(k, d)` becomes `Option.getD`); note that
  `analyze_decision` builds the key `"sexual_sensitivity"`, which is a
  different key from the stored schema field
  `"sexual_content_sensitivity"` read by `analyze`.
-/

namespace ISweep

/-- Whitespace characters recognised by Python's `str.split()`. -/
def pyIsSpace (c : Char) : Bool :=
  c = ' ' || c = '\t' || c = '\n' || c = '\r' || c = '\x0b' || c = '\x0c'

/-- Regex word characters (`\w` over the ASCII range): letters, digits, underscore. -/
def isWordChar (c : Char) : Bool :=
  c.isAlphanum || c = '_'

/-- ASCII lowercasing of one character, as Python's `str.lower()` acts on ASCII. -/
def lowerChar (c : Char) : Char :=
  if 'A' ≤ c && c ≤ 'Z' then Char.ofNat (c.toNat + 32) else c

/-- `text.lower()` over the ASCII range. -/
def lowerString (s : String) : String :=
  ⟨s.data.map lowerChar⟩

/-- Split a character list at every separator character (separators are dropped;
empty fields between adjacent separators are kept, to be filtered by the caller). -/
def splitCharsAux (sep : Char → Bool) : List Char → List Char → List (List Char)
  | [], acc => [acc.reverse]
  | c :: cs, acc =>
    if sep c then acc.reverse :: splitCharsAux sep cs []
    else splitCharsAux sep cs (c :: acc)

/-- Split a string at separator characters, dropping empty fields. -/
def splitDrop (sep : Char → Bool) (s : String) : List String :=
  ((splitCharsAux sep s.data []).map String.mk).filter (fun t => t ≠ "")

/-- The maximal word-character runs of a text: the token positions at which a
`\b`-delimited word regex can match. -/
def wordTokens (s : String) : List String :=
  splitDrop (fun c => !isWordChar c) s

/-- The fields of Python's `text.split()` (whitespace split, empties dropped). -/
def wsTokens (s : String) : List String :=
  splitDrop pyIsSpace s

/-- `ContentAnalyzer.VIOLENCE_PATTERNS`: the alternative sets of the three
violence regexes. -/
def VIOLENCE_PATTERNS : List (List String) :=
  [["kill", "killed", "murder", "shot", "shoot", "stab", "blood", "violence",
    "violent", "attack", "fight", "gun", "weapon"],
   ["death", "die", "dying", "dead"],
   ["assault", "beat", "beating", "punch", "hit"]]

/-- `ContentAnalyzer.SEXUAL_PATTERNS`: the alternative sets of the three
sexual-content regexes. -/
def SEXUAL_PATTERNS : List (List String) :=
  [["sex", "sexual", "naked", "nude", "explicit"],
   ["rape", "assault", "abuse"],
   ["intercourse", "seduce", "seduction"]]

/-- `ContentAnalyzer.SEXUAL_KEYWORDS`. -/
def SEXUAL_KEYWORDS : List String :=
  ["sex", "sexual", "naked", "nude", "explicit", "rape", "intercourse",
   "seduce", "seduction"]

/-- `ContentAnalyzer.VIOLENCE_KEYWORDS`. -/
def VIOLENCE_KEYWORDS : List String :=
  ["kill", "killed", "murder", "shot", "shoot", "stab", "blood", "violence",
   "violent", "attack", "fight", "gun", "weapon", "death", "die", "dying",
   "dead", "assault", "beat", "beating", "punch", "hit"]

/-- `ContentAnalyzer.SENSITIVITY_THRESHOLDS` (a dict; `none` models a missing key). -/
def SENSITIVITY_THRESHOLDS (s : String) : Option Nat :=
  if s = "low" then some 5
  else if s = "medium" then some 2
  else if s = "high" then some 1
  else none

/-- `ContentAnalyzer.SENSITIVITY_ACTIONS` (a dict; `none` models a missing key). -/
def SENSITIVITY_ACTIONS (s : String) : Option (String × Nat) :=
  if s = "low" then some ("mute", 5)
  else if s = "medium" then some ("fast_forward", 10)
  else if s = "high" then some ("skip", 15)
  else none

/-- `re.findall(rf'\b{re.escape(word)}\b', text, re.IGNORECASE)` count for one
keyword: the number of word-character runs of `text` that lowercase to `word`
(the source's keywords are lowercase literals). -/
def countWholeWord (text word : String) : Nat :=
  ((wordTokens text).filter (fun t => lowerString t = word)).length

/-- `ContentAnalyzer._count_whole_words`. -/
def count_whole_words (text : String) (words : List String) : Nat :=
  (words.map (fun w => countWholeWord text w)).sum

/-- `re.findall` count for one `\b(a1|a2|...)\b` pattern: the number of
word-character runs of `text` that lowercase to one of the alternatives. -/
def patternFindallCount (text : String) (alts : List String) : Nat :=
  ((wordTokens text).filter (fun t => alts.contains (lowerString t))).length

/-- `ContentAnalyzer._check_sexual_content`. -/
def check_sexual_content (text : String) : Nat :=
  count_whole_words text SEXUAL_KEYWORDS +
    (SEXUAL_PATTERNS.map (fun pat => patternFindallCount text pat)).sum

/-- `ContentAnalyzer._check_violence`. -/
def check_violence (text : String) : Nat :=
  count_whole_words text VIOLENCE_KEYWORDS +
    (VIOLENCE_PATTERNS.map (fun pat => patternFindallCount text pat)).sum

/-- `better_profanity.profanity.contains_profanity`, relative to a lexicon
`lex` of flagged tokens: some whitespace-delimited token of `s` is in the
lexicon (the library lowercases its input). -/
def contains_profanity (lex : List String) (s : String) : Bool :=
  (wsTokens s).any (fun w => lex.contains (lowerString w))

/-- `ContentAnalyzer._check_language`: if the text contains profanity, the
number of its whitespace-delimited tokens individually flagged as profane. -/
def check_language (lex : List String) (text : String) : Nat :=
  if contains_profanity lex text then
    ((wsTokens text).filter (fun w => contains_profanity lex w)).length
  else 0

/-- Modelled from the spec: the profanity lexicon is the better-profanity
library's censor word list, an external data asset that is not part of this
repository (§4.1: "the lexicon is an external, updatable data asset, not
hardcoded logic").  The spec pins its behaviour only through the
language-scoring rule (severity = number of whitespace-delimited tokens
individually flagged) together with the worked example of §8: "This is damn
stupid" under the medium threshold 2 must yield `mute`, so the tokens "damn"
and "stupid" are flagged.  Theorems quantified over an arbitrary lexicon use
a free `lex`; this concrete list serves only the spec's worked examples. -/
def censor_words : List String := ["damn", "stupid"]

/-- A user-preference record: one `Option`-valued field per dict key the
analyzer reads (`none` = key absent).  The first six fields are the columns
of the `user_preferences` schema in `src/database.py`; `sexual_sensitivity`
is the additional key `f"sexual_sensitivity"` that
`ContentAnalyzer.analyze_decision` builds, which is distinct from the stored
`sexual_content_sensitivity` column. -/
structure Prefs where
  language_filter : Option Bool
  sexual_content_filter : Option Bool
  violence_filter : Option Bool
  language_sensitivity : Option String
  sexual_content_sensitivity : Option String
  violence_sensitivity : Option String
  sexual_sensitivity : Option String
deriving DecidableEq

/-- The default preference record materialised by `Database.create_user`:
all filters enabled, all stored sensitivities `"medium"` (and no
`sexual_sensitivity` key, which is not a schema column). -/
def default_preferences : Prefs :=
  { language_filter := some true
    sexual_content_filter := some true
    violence_filter := some true
    language_sensitivity := some "medium"
    sexual_content_sensitivity := some "medium"
    violence_sensitivity := some "medium"
    sexual_sensitivity := none }

/-- Python's `if not text:` test on an optional string: true for `None` and
for the empty string. -/
def textIsEmpty : Option String → Bool
  | none => true
  | some t => t = ""

/-- `ContentAnalyzer.analyze`. -/
def analyze (lex : List String) (text : Option String) (p : Prefs) : String :=
  if textIsEmpty text then "none"
  else
    let text_lower := lowerString (text.getD "")
    if p.language_filter.getD true = true ∧
        check_language lex text_lower ≥
          (SENSITIVITY_THRESHOLDS (p.language_sensitivity.getD "medium")).getD 2 then
      "mute"
    else if p.sexual_content_filter.getD true = true ∧
        check_sexual_content text_lower ≥
          (SENSITIVITY_THRESHOLDS (p.sexual_content_sensitivity.getD "medium")).getD 2 then
      "skip"
    else if p.violence_filter.getD true = true ∧
        check_violence text_lower ≥
          (SENSITIVITY_THRESHOLDS (p.violence_sensitivity.getD "medium")).getD 2 then
      "fast_forward"
    else "none"

/-- The structured output of `ContentAnalyzer.analyze_decision`: a dict with
exactly these four keys (both dict literals in the source carry exactly
these keys). -/
structure Decision where
  action : String
  duration_seconds : Nat
  matched_category : Option String
  reason : String
deriving DecidableEq

/-- The inner `base_decision` helper of `analyze_decision`. -/
def base_decision (reason : String) : Decision :=
  { action := "none", duration_seconds := 0, matched_category := none, reason := reason }

/-- The decision built for a matched category in `analyze_decision`: action and
duration are looked up in `SENSITIVITY_ACTIONS` with the `medium` row as
default, and the reason is the semicolon-joined trace.  `confidence` models
the rendered decimal form of the optional float, which the source uses only
inside the reason text. -/
def matchDecision (category sensitivity : String) (severity : Nat)
    (confidence : Option String) : Decision :=
  let ad := (SENSITIVITY_ACTIONS sensitivity).getD ("fast_forward", 10)
  { action := ad.1
    duration_seconds := ad.2
    matched_category := some category
    reason := String.intercalate "; "
      ([category ++ " content detected", "sensitivity=" ++ sensitivity,
        "severity=" ++ toString severity] ++
        (match confidence with
         | some c => ["confidence=" ++ c]
         | none => [])) }

/-- `ContentAnalyzer.analyze_decision`: severities computed up front (disabled
categories scored 0), then the loop over `['sexual', 'violence', 'language']`
unrolled in order. -/
def analyze_decision (lex : List String) (text : Option String) (p : Prefs)
    (confidence : Option String) : Decision :=
  if textIsEmpty text then base_decision "No match"
  else
    let text_lower := lowerString (text.getD "")
    let sev_language :=
      if p.language_filter.getD true = true then check_language lex text_lower else 0
    let sev_sexual :=
      if p.sexual_content_filter.getD true = true then check_sexual_content text_lower else 0
    let sev_violence :=
      if p.violence_filter.getD true = true then check_violence text_lower else 0
    if sev_sexual ≥ (SENSITIVITY_THRESHOLDS (p.sexual_sensitivity.getD "medium")).getD 2 then
      matchDecision "sexual" (p.sexual_sensitivity.getD "medium") sev_sexual confidence
    else if sev_violence ≥
        (SENSITIVITY_THRESHOLDS (p.violence_sensitivity.getD "medium")).getD 2 then
      matchDecision "violence" (p.violence_sensitivity.getD "medium") sev_violence confidence
    else if sev_language ≥
        (SENSITIVITY_THRESHOLDS (p.language_sensitivity.getD "medium")).getD 2 then
      matchDecision "language" (p.language_sensitivity.getD "medium") sev_language confidence
    else base_decision "No match"

/-- The three content categories (spec §3). -/
inductive Cat
  | language
  | sexual
  | violence
deriving DecidableEq

/-- The string name of a category, as it appears in `matched_category`. -/
def Cat.name : Cat → String
  | .language => "language"
  | .sexual => "sexual"
  | .violence => "violence"

/-- The sensitivity→threshold table as the spec states it: low→5, medium→2,
high→1, and the medium value 2 for anything unrecognized. -/
def specThreshold (s : String) : Nat :=
  if s = "low" then 5 else if s = "medium" then 2 else if s = "high" then 1 else 2

/-- The sensitivity→(action, duration) table of the structured entry point as
the spec states it: low→(mute,5), medium→(fast_forward,10), high→(skip,15),
with the medium row as fallback. -/
def specRow (s : String) : String × Nat :=
  if s = "low" then ("mute", 5)
  else if s = "medium" then ("fast_forward", 10)
  else if s = "high" then ("skip", 15)
  else ("fast_forward", 10)

/-- Whether a category's filter is enabled in a preference record. -/
def catFilter (p : Prefs) : Cat → Bool
  | .language => p.language_filter.getD true
  | .sexual => p.sexual_content_filter.getD true
  | .violence => p.violence_filter.getD true

/-- The Matcher severity of a category on a (lowercased) text. -/
def catSeverity (lex : List String) (t : String) : Cat → Nat
  | .language => check_language lex t
  | .sexual => check_sexual_content t
  | .violence => check_violence t

/-- The sensitivity value `analyze` resolves per category: the stored schema
keys, `sexual_content_sensitivity` for the sexual category. -/
def catSensAnalyze (p : Prefs) : Cat → String
  | .language => p.language_sensitivity.getD "medium"
  | .sexual => p.sexual_content_sensitivity.getD "medium"
  | .violence => p.violence_sensitivity.getD "medium"

/-- The sensitivity value `analyze_decision` resolves per category: the
f-string key `"<category>_sensitivity"`, which for the sexual category is
`sexual_sensitivity`, not the stored `sexual_content_sensitivity`. -/
def catSensDecision (p : Prefs) : Cat → String
  | .language => p.language_sensitivity.getD "medium"
  | .sexual => p.sexual_sensitivity.getD "medium"
  | .violence => p.violence_sensitivity.getD "medium"

/-- The fixed per-category action of the simple entry point. -/
def catAction : Cat → String
  | .language => "mute"
  | .sexual => "skip"
  | .violence => "fast_forward"

/-- `analyze` as claim C4 words it: the first enabled category, in the fixed
order language, sexual, violence, whose severity reaches its sensitivity
threshold yields that category's fixed action; otherwise the result is
"none". -/
def analyzeSpec (lex : List String) (text : Option String) (p : Prefs) : String :=
  let t := lowerString (text.getD "")
  match [Cat.language, Cat.sexual, Cat.violence].find?
      (fun c => catFilter p c &&
        decide (specThreshold (catSensAnalyze p c) ≤ catSeverity lex t c)) with
  | some c => catAction c
  | none => "none"

/-- The action, duration and matched category of `analyze_decision` as claim
C3 words it: the first category in the fixed priority order sexual, violence,
language whose severity reaches its sensitivity threshold determines the
result, with action and duration taken from the sensitivity row table.
Disabled categories score 0 (spec §4.2). -/
def decisionSpecTriple (lex : List String) (text : Option String) (p : Prefs) :
    String × Nat × Option String :=
  let t := lowerString (text.getD "")
  let sev := fun c => if catFilter p c then catSeverity lex t c else 0
  match [Cat.sexual, Cat.violence, Cat.language].find?
      (fun c => decide (specThreshold (catSensDecision p c) ≤ sev c)) with
  | some c =>
    ((specRow (catSensDecision p c)).1, (specRow (catSensDecision p c)).2, some c.name)
  | none => ("none", 0, none)

/-- A stored preference record (schema keys only) whose
`sexual_content_sensitivity` column is `"high"`, all filters enabled: the
record shape `Database.get_user_preferences` hands to the analyzer. -/
def schema_high_sexual : Prefs :=
  { default_preferences with sexual_content_sensitivity := some "high" }

/-- A preference record with every filter disabled. -/
def all_filters_off : Prefs :=
  { language_filter := some false
    sexual_content_filter := some false
    violence_filter := some false
    language_sensitivity := some "high"
    sexual_content_sensitivity := some "high"
    violence_sensitivity := some "high"
    sexual_sensitivity := some "high" }

/-- A record with only the sexual filter enabled and stored sensitivity `s`. -/
def sexual_only (s : String) : Prefs :=
  { language_filter := some false
    sexual_content_filter := some true
    violence_filter := some false
    language_sensitivity := none
    sexual_content_sensitivity := some s
    violence_sensitivity := none
    sexual_sensitivity := none }

/-- The engine's threshold lookup with its dict-`get` default agrees with the
spec's threshold table for every sensitivity string. -/
lemma thresholds_getD (s : String) :
    (SENSITIVITY_THRESHOLDS s).getD 2 = specThreshold s := by
  unfold SENSITIVITY_THRESHOLDS specThreshold
  split_ifs <;> rfl

/-- The engine's action lookup with its medium-row default agrees with the
spec's row table for every sensitivity string. -/
lemma actions_getD (s : String) :
    (SENSITIVITY_ACTIONS s).getD ("fast_forward", 10) = specRow s := by
  unfold SENSITIVITY_ACTIONS specRow
  split_ifs <;> rfl

/-- Every threshold in the table (and the fallback) is at least 1. -/
lemma one_le_specThreshold (s : String) : 1 ≤ specThreshold s := by
  unfold specThreshold
  split_ifs <;> omega

/-- No threshold is ever reached by a severity of 0. -/
lemma specThreshold_not_le_zero (s : String) : ¬ specThreshold s ≤ 0 := by
  have := one_le_specThreshold s
  omega

/-- Severities of the empty text are all 0. -/
lemma catSeverity_empty (lex : List String) (c : Cat) :
    catSeverity lex (lowerString "") c = 0 := by
  cases c <;> rfl

/-- No threshold is 0 (companion to `specThreshold_not_le_zero` in the
`Nat.le_zero`-normalised form). -/
lemma specThreshold_ne_zero (s : String) : specThreshold s ≠ 0 := by
  have := one_le_specThreshold s
  omega

/-- Filtering by a disjunction of two disjoint Boolean predicates counts each
element at most once in exactly one of the two classes. -/
lemma filter_or_disjoint {α : Type} (p q : α → Bool) (l : List α)
    (h : ∀ a, p a = true → q a = false) :
    (l.filter (fun a => p a || q a)).length = (l.filter p).length + (l.filter q).length := by
  induction l with
  | nil => rfl
  | cons a l ih =>
    cases hp : p a with
    | false =>
      cases hq : q a
      all_goals simp [List.filter_cons, hp, hq, ih]
      omega
    | true =>
      have hq := h a hp
      simp [List.filter_cons, hp, hq, ih]
      omega

/-- Summing per-keyword whole-word counts over a duplicate-free keyword list
equals counting the tokens that lowercase into the keyword list. -/
lemma sum_counts_nodup (l : List String) (ws : List String) (hnd : ws.Nodup) :
    (ws.map (fun w => (l.filter (fun t => lowerString t = w)).length)).sum
      = (l.filter (fun t => ws.contains (lowerString t))).length := by
  induction ws with
  | nil => simp
  | cons w ws ih =>
    have hw : w ∉ ws := (List.nodup_cons.mp hnd).1
    have hnd' : ws.Nodup := (List.nodup_cons.mp hnd).2
    have hsplit : (fun t => (w :: ws).contains (lowerString t))
        = fun t => (decide (lowerString t = w) || ws.contains (lowerString t)) := by
      funext t
      by_cases h : lowerString t = w
      · simp [h, List.contains_cons]
      · simp [h, List.contains_cons]
    simp only [List.map_cons, List.sum_cons, ih hnd', hsplit]
    rw [filter_or_disjoint]
    intro t hdec
    have heq : lowerString t = w := of_decide_eq_true hdec
    rw [heq]
    simpa using hw

/-- C1: for the text "This is damn stupid" and the default preferences (all
three filters enabled, all sensitivities medium), `analyze` returns `mute`:
the language severity is the number of whitespace tokens flagged by the
profanity lexicon (here "damn" and "stupid", so 2), which meets the medium
threshold 2, and the language filter is checked first. -/
theorem analyze_damn_stupid_default_mute :
    analyze censor_words (some "This is damn stupid") default_preferences = "mute" := by
  decide

/-- C2 counterexample: on the claim's text, with the stored preference record
whose `sexual_content_sensitivity` column is `"high"` (all filters enabled),
`analyze_decision` does not return the action `"skip"`: it reads the distinct
key `sexual_sensitivity`, which the stored record lacks, so the medium row
applies. -/
theorem analyze_decision_schema_high_not_skip :
    ¬ ((analyze_decision censor_words
        (some "Explicit sexual content and sexual scene with a violent fight and strong language")
        schema_high_sexual none).action = "skip"
      ∧ (analyze_decision censor_words
        (some "Explicit sexual content and sexual scene with a violent fight and strong language")
        schema_high_sexual none).matched_category = some "sexual"
      ∧ 0 < (analyze_decision censor_words
        (some "Explicit sexual content and sexual scene with a violent fight and strong language")
        schema_high_sexual none).duration_seconds) := by
  decide

/-- C2 amended: on the claim's text with the stored record whose
`sexual_content_sensitivity` is `"high"`, `analyze_decision` does return
`matched_category = "sexual"` with positive duration, but the action is
`"fast_forward"` with duration 10 (the medium fallback row), because the
function reads the key `sexual_sensitivity`, absent from stored records;
if the record additionally carries `sexual_sensitivity = "high"`, the action
is `"skip"` with duration 15. -/
theorem analyze_decision_schema_high_medium_row :
    (analyze_decision censor_words
        (some "Explicit sexual content and sexual scene with a violent fight and strong language")
        schema_high_sexual none).matched_category = some "sexual"
  ∧ (analyze_decision censor_words
        (some "Explicit sexual content and sexual scene with a violent fight and strong language")
        schema_high_sexual none).action = "fast_forward"
  ∧ (analyze_decision censor_words
        (some "Explicit sexual content and sexual scene with a violent fight and strong language")
        schema_high_sexual none).duration_seconds = 10
  ∧ 0 < (analyze_decision censor_words
        (some "Explicit sexual content and sexual scene with a violent fight and strong language")
        schema_high_sexual none).duration_seconds
  ∧ (analyze_decision censor_words
        (some "Explicit sexual content and sexual scene with a violent fight and strong language")
        { schema_high_sexual with sexual_sensitivity := some "high" } none).action = "skip"
  ∧ (analyze_decision censor_words
        (some "Explicit sexual content and sexual scene with a violent fight and strong language")
        { schema_high_sexual with sexual_sensitivity := some "high" } none).duration_seconds = 15
  ∧ (analyze_decision censor_words
        (some "Explicit sexual content and sexual scene with a violent fight and strong language")
        { schema_high_sexual with sexual_sensitivity := some "high" } none).matched_category
      = some "sexual" := by
  decide

/-- C3: for every lexicon, text, preference record and confidence, the action,
duration and matched category of `analyze_decision` are exactly those of the
claim's rule: the first category in the fixed priority order sexual, violence,
language whose severity reaches its sensitivity threshold determines the
result, with action and duration from the table low→(mute,5),
medium→(fast_forward,10), high→(skip,15) and the medium row as fallback for
unrecognized or missing sensitivities. -/
theorem analyze_decision_priority_refines_spec (lex : List String)
    (text : Option String) (p : Prefs) (conf : Option String) :
    ((analyze_decision lex text p conf).action,
     (analyze_decision lex text p conf).duration_seconds,
     (analyze_decision lex text p conf).matched_category) = decisionSpecTriple lex text p := by
  cases text with
  | none =>
    have h0 : decisionSpecTriple lex none p = ("none", 0, none) := by
      simp only [decisionSpecTriple, Option.getD_none, List.find?]
      simp [catSeverity_empty, specThreshold_not_le_zero, specThreshold_ne_zero]
    rw [h0]
    simp [analyze_decision, textIsEmpty, base_decision]
  | some t =>
    by_cases ht : t = ""
    · subst ht
      have h0 : decisionSpecTriple lex (some "") p = ("none", 0, none) := by
        simp only [decisionSpecTriple, Option.getD_some, List.find?]
        simp [catSeverity_empty, specThreshold_not_le_zero, specThreshold_ne_zero]
      rw [h0]
      simp [analyze_decision, textIsEmpty, base_decision]
    · simp only [analyze_decision, decisionSpecTriple, textIsEmpty, ht, decide_eq_true_eq,
        if_neg, Option.getD_some, List.find?, catFilter, catSeverity, catSensDecision,
        catAction, Cat.name, thresholds_getD, ge_iff_le, matchDecision, base_decision]
      by_cases h1 : specThreshold (p.sexual_sensitivity.getD "medium") ≤
          (if p.sexual_content_filter.getD true = true then
            check_sexual_content (lowerString t) else 0) <;>
      by_cases h2 : specThreshold (p.violence_sensitivity.getD "medium") ≤
          (if p.violence_filter.getD true = true then
            check_violence (lowerString t) else 0) <;>
      by_cases h3 : specThreshold (p.language_sensitivity.getD "medium") ≤
          (if p.language_filter.getD true = true then
            check_language lex (lowerString t) else 0) <;>
      simp [h1, h2, h3, actions_getD]

/-- C4: for every lexicon, text and preference record, `analyze` implements
the claim's rule: categories in the fixed order language, sexual, violence,
the first enabled one whose severity reaches its threshold (low→5, medium→2,
high→1, inclusive) yields its fixed action (language→mute, sexual→skip,
violence→fast_forward), otherwise "none"; and any text whose three severities
all reach the default (medium) threshold 2 yields "mute" under the default
preferences. -/
theorem analyze_order_refines_spec (lex : List String) (text : Option String)
    (p : Prefs) :
    analyze lex text p = analyzeSpec lex text p
  ∧ (2 ≤ check_language lex (lowerString (text.getD "")) →
      2 ≤ check_sexual_content (lowerString (text.getD "")) →
      2 ≤ check_violence (lowerString (text.getD "")) →
      analyze lex text default_preferences = "mute") := by
  constructor
  · cases text with
    | none =>
      have h0 : analyzeSpec lex none p = "none" := by
        simp only [analyzeSpec, Option.getD_none, List.find?]
        simp [catSeverity_empty, specThreshold_not_le_zero, specThreshold_ne_zero]
      rw [h0]
      simp [analyze, textIsEmpty]
    | some t =>
      by_cases ht : t = ""
      · subst ht
        have h0 : analyzeSpec lex (some "") p = "none" := by
          simp only [analyzeSpec, Option.getD_some, List.find?]
          simp [catSeverity_empty, specThreshold_not_le_zero, specThreshold_ne_zero]
        rw [h0]
        simp [analyze, textIsEmpty]
      · simp only [analyze, analyzeSpec, textIsEmpty, ht, decide_eq_true_eq, if_neg,
          Option.getD_some, List.find?, catFilter, catSeverity, catSensAnalyze, catAction,
          thresholds_getD, ge_iff_le]
        by_cases f1 : p.language_filter.getD true = true <;>
        by_cases c1 : specThreshold (p.language_sensitivity.getD "medium") ≤
            check_language lex (lowerString t) <;>
        by_cases f2 : p.sexual_content_filter.getD true = true <;>
        by_cases c2 : specThreshold (p.sexual_content_sensitivity.getD "medium") ≤
            check_sexual_content (lowerString t) <;>
        by_cases f3 : p.violence_filter.getD true = true <;>
        by_cases c3 : specThreshold (p.violence_sensitivity.getD "medium") ≤
            check_violence (lowerString t) <;>
        simp [f1, c1, f2, c2, f3, c3]
  · intro hl _ _
    cases text with
    | none =>
      have h0 : check_language lex (lowerString "") = 0 := rfl
      simp only [Option.getD_none] at hl
      omega
    | some t =>
      simp only [Option.getD_some] at hl
      by_cases ht : t = ""
      · subst ht
        have h0 : check_language lex (lowerString "") = 0 := rfl
        omega
      · simp [analyze, textIsEmpty, ht, default_preferences, SENSITIVITY_THRESHOLDS,
          ge_iff_le]
        intro h2
        omega

/-- C4 witness: the text "damn stupid sexual kill" triggers all three
categories at the medium threshold under the modelled lexicon, and `analyze`
returns "mute" on it with the default preferences. -/
theorem analyze_order_refines_spec_witness :
    2 ≤ check_language censor_words (lowerString ((some "damn stupid sexual kill").getD ""))
  ∧ 2 ≤ check_sexual_content (lowerString ((some "damn stupid sexual kill").getD ""))
  ∧ 2 ≤ check_violence (lowerString ((some "damn stupid sexual kill").getD ""))
  ∧ analyze censor_words (some "damn stupid sexual kill") default_preferences = "mute" :=
  ⟨by decide, by decide, by decide,
    (analyze_order_refines_spec censor_words (some "damn stupid sexual kill")
      default_preferences).2 (by decide) (by decide) (by decide)⟩

/-- C5: for every lexicon, preference record and confidence, an empty or
absent text makes `analyze` return "none" and `analyze_decision` return the
no-match decision. -/
theorem empty_text_no_match (lex : List String) (text : Option String) (p : Prefs)
    (conf : Option String) (h : textIsEmpty text = true) :
    analyze lex text p = "none"
  ∧ analyze_decision lex text p conf = base_decision "No match" := by
  constructor <;> simp [analyze, analyze_decision, h]

/-- C5 witness: the absent text under the modelled lexicon and default
preferences. -/
theorem empty_text_no_match_witness :
    analyze censor_words none default_preferences = "none"
  ∧ analyze_decision censor_words none default_preferences none = base_decision "No match" :=
  empty_text_no_match censor_words none default_preferences none rfl

/-- C6: for every lexicon, text, preference record and confidence, a category
whose filter field is stored as false never determines the result: `analyze`
never returns that category's action, and `analyze_decision` never reports it
as the matched category. -/
theorem disabled_filter_never_decides (lex : List String) (text : Option String)
    (p : Prefs) (conf : Option String) :
    (p.language_filter = some false →
      analyze lex text p ≠ "mute"
      ∧ (analyze_decision lex text p conf).matched_category ≠ some "language")
  ∧ (p.sexual_content_filter = some false →
      analyze lex text p ≠ "skip"
      ∧ (analyze_decision lex text p conf).matched_category ≠ some "sexual")
  ∧ (p.violence_filter = some false →
      analyze lex text p ≠ "fast_forward"
      ∧ (analyze_decision lex text p conf).matched_category ≠ some "violence") := by
  refine ⟨fun h => ⟨?_, ?_⟩, fun h => ⟨?_, ?_⟩, fun h => ⟨?_, ?_⟩⟩ <;>
    simp only [analyze, analyze_decision, h, Option.getD_some, Bool.false_eq_true,
      false_and, if_false, thresholds_getD, ge_iff_le, Nat.le_zero,
      specThreshold_ne_zero] <;>
    split_ifs <;>
    simp_all [matchDecision, base_decision]

/-- C6 witness: with every filter disabled, none of the three categories
decides, on a text that would otherwise trigger all of them. -/
theorem disabled_filter_never_decides_witness :
    analyze censor_words (some "damn stupid sexual kill") all_filters_off ≠ "mute"
  ∧ analyze censor_words (some "damn stupid sexual kill") all_filters_off ≠ "skip"
  ∧ (analyze_decision censor_words (some "damn stupid sexual kill") all_filters_off
      none).matched_category ≠ some "violence" :=
  ⟨((disabled_filter_never_decides censor_words (some "damn stupid sexual kill")
      all_filters_off none).1 rfl).1,
   ((disabled_filter_never_decides censor_words (some "damn stupid sexual kill")
      all_filters_off none).2.1 rfl).1,
   ((disabled_filter_never_decides censor_words (some "damn stupid sexual kill")
      all_filters_off none).2.2 rfl).2⟩

/-- C7: the sensitivity→threshold table maps low to 5, medium to 2 and high
to 1, and is non-increasing along low, medium, high, so raising sensitivity
never increases the number of matches required to trigger. -/
theorem thresholds_nonincreasing :
    SENSITIVITY_THRESHOLDS "low" = some 5
  ∧ SENSITIVITY_THRESHOLDS "medium" = some 2
  ∧ SENSITIVITY_THRESHOLDS "high" = some 1
  ∧ (SENSITIVITY_THRESHOLDS "medium").getD 2 ≤ (SENSITIVITY_THRESHOLDS "low").getD 2
  ∧ (SENSITIVITY_THRESHOLDS "high").getD 2 ≤ (SENSITIVITY_THRESHOLDS "medium").getD 2 := by
  decide

/-- C8: for every text, the sexual and violence severities equal the count of
tokens (maximal word-character runs, so whole words only, every repeated
occurrence counted) lying in the keyword list, plus the regex pattern match
counts over the same lowercased text; the two counts are summed even where
keyword and pattern coverage overlap ("sex" scores 2), no sub-string matches
occur ("sexy sextet" scores 0), and repeats all count ("sex sex" scores 4). -/
theorem severity_sum_keywords_patterns (text : String) :
    (check_sexual_content text
      = ((wordTokens text).filter (fun t => SEXUAL_KEYWORDS.contains (lowerString t))).length
        + (SEXUAL_PATTERNS.map (fun pat => patternFindallCount text pat)).sum)
  ∧ (check_violence text
      = ((wordTokens text).filter (fun t => VIOLENCE_KEYWORDS.contains (lowerString t))).length
        + (VIOLENCE_PATTERNS.map (fun pat => patternFindallCount text pat)).sum)
  ∧ check_sexual_content "sex" = 2
  ∧ check_sexual_content "sexy sextet" = 0
  ∧ check_sexual_content "sex sex" = 4 := by
  refine ⟨?_, ?_, by decide, by decide, by decide⟩
  · unfold check_sexual_content count_whole_words countWholeWord
    rw [sum_counts_nodup _ _ (by decide)]
  · unfold check_violence count_whole_words countWholeWord
    rw [sum_counts_nodup _ _ (by decide)]

/-- C9: for every lexicon, nonempty text, preference record and confidence,
if no enabled category's severity reaches its threshold, `analyze_decision`
returns exactly the no-match object with action "none", duration 0, no
matched category and reason "No match" (the embedding's `Decision` type has
exactly the four fields both dict literals of the source carry). -/
theorem no_breach_no_match_decision (lex : List String) (t : String) (p : Prefs)
    (conf : Option String) (ht : t ≠ "")
    (hs : p.sexual_content_filter.getD true = true →
      check_sexual_content (lowerString t)
        < (SENSITIVITY_THRESHOLDS (p.sexual_sensitivity.getD "medium")).getD 2)
    (hv : p.violence_filter.getD true = true →
      check_violence (lowerString t)
        < (SENSITIVITY_THRESHOLDS (p.violence_sensitivity.getD "medium")).getD 2)
    (hl : p.language_filter.getD true = true →
      check_language lex (lowerString t)
        < (SENSITIVITY_THRESHOLDS (p.language_sensitivity.getD "medium")).getD 2) :
    analyze_decision lex (some t) p conf
      = { action := "none", duration_seconds := 0, matched_category := none,
          reason := "No match" } := by
  have hS : ¬ ((SENSITIVITY_THRESHOLDS (p.sexual_sensitivity.getD "medium")).getD 2 ≤
      (if p.sexual_content_filter.getD true = true then
        check_sexual_content (lowerString t) else 0)) := by
    by_cases h : p.sexual_content_filter.getD true = true
    · simp only [if_pos h]
      exact Nat.not_le.mpr (hs h)
    · simp only [if_neg h]
      rw [thresholds_getD]
      exact specThreshold_not_le_zero _
  have hV : ¬ ((SENSITIVITY_THRESHOLDS (p.violence_sensitivity.getD "medium")).getD 2 ≤
      (if p.violence_filter.getD true = true then
        check_violence (lowerString t) else 0)) := by
    by_cases h : p.violence_filter.getD true = true
    · simp only [if_pos h]
      exact Nat.not_le.mpr (hv h)
    · simp only [if_neg h]
      rw [thresholds_getD]
      exact specThreshold_not_le_zero _
  have hL : ¬ ((SENSITIVITY_THRESHOLDS (p.language_sensitivity.getD "medium")).getD 2 ≤
      (if p.language_filter.getD true = true then
        check_language lex (lowerString t) else 0)) := by
    by_cases h : p.language_filter.getD true = true
    · simp only [if_pos h]
      exact Nat.not_le.mpr (hl h)
    · simp only [if_neg h]
      rw [thresholds_getD]
      exact specThreshold_not_le_zero _
  simp [analyze_decision, textIsEmpty, ht, ge_iff_le, hS, hV, hL, base_decision]

/-- C9 witness: a clean nonempty text under the default preferences. -/
theorem no_breach_no_match_decision_witness :
    analyze_decision censor_words (some "hello world") default_preferences none
      = { action := "none", duration_seconds := 0, matched_category := none,
          reason := "No match" } :=
  no_breach_no_match_decision censor_words "hello world" default_preferences none
    (by decide) (by decide) (by decide) (by decide)

/-- C10: `analyze` reads the stored `sexual_content_sensitivity` field while
`analyze_decision` builds the distinct key `sexual_sensitivity`; hence for
every preference record without a `sexual_sensitivity` key, `analyze_decision`
ignores the stored `sexual_content_sensitivity` value entirely, applies the
medium threshold 2 to the sexual category and, whenever the sexual category is
matched, the medium action row (fast_forward, 10); `analyze` meanwhile does
depend on the stored field. -/
theorem sexual_sensitivity_key_mismatch (lex : List String) (text : Option String)
    (p : Prefs) (conf : Option String) (v : Option String)
    (h : p.sexual_sensitivity = none) :
    analyze_decision lex text { p with sexual_content_sensitivity := v } conf
      = analyze_decision lex text p conf
  ∧ ((analyze_decision lex text p conf).matched_category = some "sexual" →
      (analyze_decision lex text p conf).action = "fast_forward"
      ∧ (analyze_decision lex text p conf).duration_seconds = 10)
  ∧ ((analyze_decision lex text p conf).matched_category = some "sexual" ↔
      (textIsEmpty text = false
        ∧ 2 ≤ (if p.sexual_content_filter.getD true = true then
            check_sexual_content (lowerString (text.getD "")) else 0)))
  ∧ analyze censor_words (some "sexual") (sexual_only "low") = "none"
  ∧ analyze censor_words (some "sexual") (sexual_only "high") = "skip" := by
  refine ⟨rfl, ?_, ?_, by decide, by decide⟩
  · simp only [analyze_decision, h, Option.getD_none]
    split_ifs <;> simp [matchDecision, base_decision, SENSITIVITY_ACTIONS]
  · simp only [analyze_decision, h, Option.getD_none]
    by_cases he : textIsEmpty text = true
    · simp [he, base_decision]
    · have he' : textIsEmpty text = false := by
        revert he
        cases textIsEmpty text <;> simp
      by_cases hsx : 2 ≤ (if p.sexual_content_filter.getD true = true then
          check_sexual_content (lowerString (text.getD "")) else 0)
      · rw [if_neg he, if_pos (show (if p.sexual_content_filter.getD true = true then
            check_sexual_content (lowerString (text.getD "")) else 0) ≥
            (SENSITIVITY_THRESHOLDS "medium").getD 2 from hsx)]
        simp [matchDecision, he', hsx]
      · rw [if_neg he, if_neg (show ¬ ((if p.sexual_content_filter.getD true = true then
            check_sexual_content (lowerString (text.getD "")) else 0) ≥
            (SENSITIVITY_THRESHOLDS "medium").getD 2) from hsx)]
        split_ifs <;> simp_all [matchDecision, base_decision]

/-- C10 witness: on the text "sexual sex", a record storing
`sexual_content_sensitivity = "high"` and a record storing `"medium"` give the
same structured decision, since neither carries the `sexual_sensitivity` key. -/
theorem sexual_sensitivity_key_mismatch_witness :
    analyze_decision censor_words (some "sexual sex")
        { default_preferences with sexual_content_sensitivity := some "high" } none
      = analyze_decision censor_words (some "sexual sex") default_preferences none :=
  (sexual_sensitivity_key_mismatch censor_words (some "sexual sex") default_preferences
    none (some "high") rfl).1

end ISweep
